import Mathlib

/-!
Verification of the browser-session backend (`src/backend/routes/browser.py`,
`src/backend/routes/search.py`): a shallow embedding of the session store,
per-session navigation history tracker, command handlers, WebSocket connect
phase, engine startup and shutdown cleanup, and of the search-suggestions
endpoint, together with theorems settling the specified properties.
-/

namespace Nav

/-- Per-session navigation history tracker state: the `history` list of visited
URLs and the `history_index` cursor (`-1` before any tracked navigation), as
stored in the session dict (`browser.py` lines 53-54). -/
structure TrackerState where
  history : List String
  historyIndex : Int
  deriving DecidableEq, Repr

/-- History update performed by the REST `navigate` handler (`browser.py`
lines 173-175): `history = history[:history_index+1]`, `history.append(url)`,
`history_index = len(history)-1`. -/
def recordNavigation (s : TrackerState) (url : String) : TrackerState :=
  let truncated := s.history.take (s.historyIndex + 1).toNat
  let newHistory := truncated ++ [url]
  { history := newHistory, historyIndex := (newHistory.length : Int) - 1 }

/-- History update performed by the WebSocket `navigate` command branch
(`browser.py` lines 352-353): `history.append(url)`,
`history_index = len(history)-1` — no truncation of forward entries. -/
def wsRecordNavigation (s : TrackerState) (url : String) : TrackerState :=
  let newHistory := s.history ++ [url]
  { history := newHistory, historyIndex := (newHistory.length : Int) - 1 }

/-- Tracker part of the `back` handlers (`browser.py` lines 193-199 and
376-378): decrement the cursor only when `history_index > 0`. -/
def goBackUpdate (s : TrackerState) : TrackerState :=
  if s.historyIndex > 0 then { s with historyIndex := s.historyIndex - 1 } else s

/-- Tracker part of the `forward` handlers (`browser.py` lines 208-212 and
381-383): increment the cursor only when `history_index < len(history)-1`. -/
def goForwardUpdate (s : TrackerState) : TrackerState :=
  if s.historyIndex < (s.history.length : Int) - 1 then
    { s with historyIndex := s.historyIndex + 1 }
  else s

/-- `refresh` (`browser.py` lines 223-225 and 385-386) reloads the page and
does not touch the tracker. -/
def refreshUpdate (s : TrackerState) : TrackerState := s

/-- The tracker-mutating operations reachable through REST or WebSocket. -/
inductive NavOp where
  | restNavigate (url : String)
  | wsNavigate (url : String)
  | back
  | forward
  | refresh
  deriving DecidableEq, Repr

def applyOp (s : TrackerState) : NavOp → TrackerState
  | .restNavigate url => recordNavigation s url
  | .wsNavigate url => wsRecordNavigation s url
  | .back => goBackUpdate s
  | .forward => goForwardUpdate s
  | .refresh => refreshUpdate s

/-- A fresh session starts with `history = []`, `history_index = -1`
(`browser.py` lines 53-54). -/
def initialTracker : TrackerState := { history := [], historyIndex := -1 }

def runOps (ops : List NavOp) : TrackerState := ops.foldl applyOp initialTracker

/-- The history-index range invariant stated in the spec. -/
def trackerInv (s : TrackerState) : Prop :=
  -1 ≤ s.historyIndex ∧ s.historyIndex ≤ (s.history.length : Int) - 1

/-- Status response of `get_session_status` (`browser.py` lines 152-158);
`current_url` and `title` come from the live page and are passed in here. -/
structure SessionStatusResponse where
  current_url : String
  title : String
  can_go_back : Bool
  can_go_forward : Bool
  deriving DecidableEq, Repr

def get_session_status (s : TrackerState) (currentUrl pageTitle : String) :
    SessionStatusResponse :=
  { current_url := currentUrl
    title := pageTitle
    can_go_back := decide (s.historyIndex > 0)
    can_go_forward := decide (s.historyIndex < (s.history.length : Int) - 1) }

theorem applyOp_inv (s : TrackerState) (op : NavOp) (h : trackerInv s) :
    trackerInv (applyOp s op) := by
  obtain ⟨h1, h2⟩ := h
  cases op with
  | restNavigate url =>
      simp only [applyOp, recordNavigation, trackerInv, List.length_append,
        List.length_cons, List.length_nil]
      constructor <;> push_cast <;> omega
  | wsNavigate url =>
      simp only [applyOp, wsRecordNavigation, trackerInv, List.length_append,
        List.length_cons, List.length_nil]
      constructor <;> push_cast <;> omega
  | back =>
      simp only [applyOp, goBackUpdate]
      split
      · refine ⟨?_, ?_⟩ <;> dsimp only [trackerInv] <;> omega
      · exact ⟨h1, h2⟩
  | forward =>
      simp only [applyOp, goForwardUpdate]
      split
      · rename_i hlt
        refine ⟨?_, ?_⟩ <;> dsimp only [trackerInv] <;> omega
      · exact ⟨h1, h2⟩
  | refresh => exact ⟨h1, h2⟩

theorem foldl_applyOp_inv (ops : List NavOp) :
    ∀ s : TrackerState, trackerInv s → trackerInv (ops.foldl applyOp s) := by
  induction ops with
  | nil => intro s h; exact h
  | cons op rest ih => intro s h; exact ih _ (applyOp_inv s op h)

/-- Outcome of `page.goto(url, wait_until=..., timeout=30000)`: either the load
completes (yielding the page's resulting URL and title) or it raises with a
reason (timeout or load failure). -/
inductive GotoResult where
  | success (finalUrl : String) (pageTitle : String)
  | failure (reason : String)
  deriving DecidableEq, Repr

/-- Success body of the REST `navigate` handler (`browser.py` lines 177-181). -/
structure NavigateResponse where
  status : String
  url : String
  title : String
  deriving DecidableEq, Repr

/-- REST `navigate` handler body for an existing session (`browser.py` lines
167-184): on a raised `goto` the history lines are never reached and the
exception becomes a 500 with `detail = str(e)`; on success the history is
updated and the response carries `page.url` and `page.title()`. -/
def navigateHandler (s : TrackerState) (url : String) :
    GotoResult → TrackerState × Except String NavigateResponse
  | .failure reason => (s, Except.error reason)
  | .success finalUrl pageTitle =>
      (recordNavigation s url,
       Except.ok { status := "navigated", url := finalUrl, title := pageTitle })

end Nav

open Nav in
/-- C1 counterexample: from `history=[A,B,C]`, `historyIndex=0`, a WebSocket
`navigate` to `D` appends without truncating, yielding `history=[A,B,C,D]`,
`historyIndex=3` — not the `history=[A,D]`, `historyIndex=1` the claim
requires of every navigate operation. -/
theorem ws_navigate_does_not_truncate :
    applyOp ⟨["A", "B", "C"], 0⟩ (NavOp.wsNavigate "D") = ⟨["A", "B", "C", "D"], 3⟩ ∧
    applyOp ⟨["A", "B", "C"], 0⟩ (NavOp.wsNavigate "D") ≠ ⟨["A", "D"], 1⟩ := by
  constructor <;> decide

open Nav in
/-- C1 (amended): the REST `navigate` handler truncates the history to
`historyIndex+1` entries, appends the url and points the cursor at the new
last index — in particular `[A,B,C]` at index 0 navigated to `D` becomes
`[A,D]` at index 1 — whereas the WebSocket `navigate` branch only appends the
url (no truncation) and points the cursor at the new last index. -/
theorem rest_navigate_truncates_ws_navigate_appends :
    recordNavigation ⟨["A", "B", "C"], 0⟩ "D" = ⟨["A", "D"], 1⟩ ∧
    (∀ (s : TrackerState) (url : String),
      (recordNavigation s url).history =
        s.history.take (s.historyIndex + 1).toNat ++ [url] ∧
      (recordNavigation s url).historyIndex =
        ((recordNavigation s url).history.length : Int) - 1 ∧
      (wsRecordNavigation s url).history = s.history ++ [url] ∧
      (wsRecordNavigation s url).historyIndex =
        ((wsRecordNavigation s url).history.length : Int) - 1) := by
  refine ⟨by decide, fun s url => ⟨rfl, rfl, rfl, rfl⟩⟩

open Nav in
/-- C2: starting from a fresh tracker, every sequence of REST/WebSocket
navigate, back, forward and refresh operations preserves
`-1 ≤ historyIndex ≤ len(history) - 1`, and the status endpoint reports
`can_go_back` exactly when `historyIndex > 0` and `can_go_forward` exactly
when `historyIndex < len(history) - 1`. -/
theorem tracker_invariant_and_status_flags (ops : List NavOp)
    (currentUrl pageTitle : String) :
    (-1 ≤ (runOps ops).historyIndex ∧
      (runOps ops).historyIndex ≤ ((runOps ops).history.length : Int) - 1) ∧
    ((get_session_status (runOps ops) currentUrl pageTitle).can_go_back = true ↔
      (runOps ops).historyIndex > 0) ∧
    ((get_session_status (runOps ops) currentUrl pageTitle).can_go_forward = true ↔
      (runOps ops).historyIndex < ((runOps ops).history.length : Int) - 1) := by
  refine ⟨foldl_applyOp_inv ops initialTracker ⟨le_refl _, by simp [initialTracker]⟩, ?_, ?_⟩ <;>
    simp [get_session_status]

open Nav in
/-- C5: on an existing session, a failed or timed-out `goto` surfaces a
500-equivalent error carrying the underlying reason and leaves the history and
cursor untouched; a successful load records the navigation via
`recordNavigation` and answers with the resulting URL and page title. -/
theorem navigate_failure_preserves_success_records (s : TrackerState) (url : String) :
    (∀ reason,
      (navigateHandler s url (.failure reason)).1.history = s.history ∧
      (navigateHandler s url (.failure reason)).1.historyIndex = s.historyIndex ∧
      (navigateHandler s url (.failure reason)).2 = Except.error reason) ∧
    (∀ finalUrl pageTitle,
      (navigateHandler s url (.success finalUrl pageTitle)).1 = recordNavigation s url ∧
      ∃ resp,
        (navigateHandler s url (.success finalUrl pageTitle)).2 = Except.ok resp ∧
        resp.url = finalUrl ∧ resp.title = pageTitle) :=
  ⟨fun _ => ⟨rfl, rfl, rfl⟩, fun _ _ => ⟨rfl, ⟨_, rfl, rfl, rfl⟩⟩⟩

namespace Key

/-- Modifier set of a keypress request (`browser.py` line 98,
`modifiers: Optional[Dict[str, bool]]`, read via `modifiers.get(...)`). -/
structure Modifiers where
  ctrl : Bool
  alt : Bool
  shift : Bool
  meta : Bool
  deriving DecidableEq, Repr

/-- Key list built by the REST `keypress` handler (`browser.py` lines
280-292): `Control`, `Alt`, `Shift`, `Meta` appended in that fixed order when
the corresponding modifier is set, then the key itself. -/
def chordKeys (m : Modifiers) (key : String) : List String :=
  (if m.ctrl then ["Control"] else []) ++
    (if m.alt then ["Alt"] else []) ++
    (if m.shift then ["Shift"] else []) ++
    (if m.meta then ["Meta"] else []) ++ [key]

/-- The chord string dispatched by the REST handler (`browser.py` line 293):
`'+'.join(keys)`. -/
def restKeypressChord (m : Modifiers) (key : String) : String :=
  String.intercalate "+" (chordKeys m key)

/-- An inbound WebSocket `keypress` command frame: the handler reads only the
`key` field; a `modifiers` field, if present, is never consulted. -/
structure KeypressFrame where
  key : String
  modifiers : Option Modifiers
  deriving DecidableEq, Repr

/-- WebSocket `keypress` branch (`browser.py` lines 366-368):
`page.keyboard.press(data.get('key', ''))` — the raw key, no chord. -/
def wsKeypressDispatch (f : KeypressFrame) : String := f.key

end Key

open Key in
/-- C4 counterexample: a WebSocket `keypress` frame with key `A` and modifiers
`{ctrl:true, shift:true}` dispatches just `A`, not the `Control+Shift+A` chord
the claim requires of the WebSocket path. -/
theorem ws_keypress_drops_modifiers :
    wsKeypressDispatch ⟨"A", some ⟨true, false, true, false⟩⟩ = "A" ∧
    wsKeypressDispatch ⟨"A", some ⟨true, false, true, false⟩⟩ ≠
      restKeypressChord ⟨true, false, true, false⟩ "A" := by
  constructor <;> decide

open Key in
/-- C4 (amended): the REST `keypress` handler builds the chord in the fixed
order ctrl, alt, shift, meta, then the key — `{ctrl, shift}` with `A` gives
`Control+Shift+A` and all four modifiers with `x` give
`Control+Alt+Shift+Meta+x` — while the WebSocket `keypress` branch dispatches
the frame's raw key, ignoring any modifiers in the frame. -/
theorem rest_keypress_chord_fixed_order :
    restKeypressChord ⟨true, false, true, false⟩ "A" = "Control+Shift+A" ∧
    restKeypressChord ⟨true, true, true, true⟩ "x" = "Control+Alt+Shift+Meta+x" ∧
    restKeypressChord ⟨false, false, false, false⟩ "Enter" = "Enter" ∧
    (∀ f : KeypressFrame, wsKeypressDispatch f = f.key) := by
  refine ⟨by decide, by decide, by decide, fun f => rfl⟩

namespace Search

/-- Python `str.strip()`: drop leading and trailing whitespace. -/
def pyStrip (s : String) : String :=
  String.mk
    (((s.toList.dropWhile Char.isWhitespace).reverse.dropWhile Char.isWhitespace).reverse)

/-- Python `str.startswith(p)`. -/
def pyStartsWith (s p : String) : Bool :=
  p.toList.isPrefixOf s.toList

/-- Python `str.find(c)`: index of the first occurrence of `c`, or `-1`. -/
def pyStrFind (s : String) (c : Char) : Int :=
  match s.toList.findIdx? (fun x => x = c) with
  | some i => (i : Int)
  | none => -1

/-- Python `str.rfind(c)`: index of the last occurrence of `c`, or `-1`. -/
def pyStrRFind (s : String) (c : Char) : Int :=
  match s.toList.reverse.findIdx? (fun x => x = c) with
  | some i => (s.toList.length : Int) - 1 - (i : Int)
  | none => -1

/-- Python slice `s[a:b]` for non-negative bounds. -/
def pySlice (s : String) (a b : Nat) : String :=
  String.mk ((s.toList.drop a).take (b - a))

/-- Outcome of the `chat(...)` call to the suggestion service: it either
raises (service unavailable) or responds with a free-text message. -/
inductive ServiceOutcome where
  | unavailable (err : String)
  | responded (message : String)
  deriving DecidableEq, Repr

/-- `get_ai_suggestions` (`search.py` lines 19-60), with `json.loads`
restricted to string lists modelled by the `parse` argument (`none` meaning
`json.loads` raised). A raised `chat` or `json.loads` propagates as an error;
a response with no bracketed array yields `[query]`; every successful branch
is cut to `limit` elements. -/
def get_ai_suggestions (parse : String → Option (List String)) (query : String)
    (limit : Nat) (outcome : ServiceOutcome) : Except String (List String) :=
  match outcome with
  | .unavailable err => Except.error err
  | .responded message =>
      let content := pyStrip message
      if pyStartsWith content "[" then
        match parse content with
        | some l => Except.ok (l.take limit)
        | none => Except.error "json.loads failed"
      else
        let start := pyStrFind content '['
        let stop := pyStrRFind content ']' + 1
        if 0 ≤ start ∧ start < stop then
          match parse (pySlice content start.toNat stop.toNat) with
          | some l => Except.ok (l.take limit)
          | none => Except.error "json.loads failed"
        else
          Except.ok ([query].take limit)

/-- The fixed template fallback list (`search.py` lines 78-84). -/
def fallbackSuggestions (q : String) : List String :=
  [q ++ " tutorial", q ++ " example", q ++ " documentation",
   "how to " ++ q, q ++ " guide"]

structure SuggestionsResponse where
  suggestions : List String
  query : String
  deriving DecidableEq, Repr

/-- `get_search_suggestions` (`search.py` lines 62-88): empty or
shorter-than-2 (after strip) queries answer immediately with no suggestions;
otherwise the service is consulted and any raised error is replaced by the
template fallback cut to `limit`. -/
def get_search_suggestions (parse : String → Option (List String)) (q : String)
    (limit : Nat) (outcome : ServiceOutcome) : SuggestionsResponse :=
  if q = "" ∨ (pyStrip q).length < 2 then
    { suggestions := [], query := q }
  else
    match get_ai_suggestions parse q limit outcome with
    | Except.ok l => { suggestions := l, query := q }
    | Except.error _ => { suggestions := (fallbackSuggestions q).take limit, query := q }

end Search

open Search in
/-- C6 counterexample: for query `docker`, a service response whose text
contains no bracketed array (here `hello`) cannot be parsed as a list of
strings, yet the endpoint answers `["docker"]` — not the first elements of the
template list the claim requires for every unparsable output. -/
theorem unbracketed_output_not_template :
    get_search_suggestions (fun _ => none) "docker" 5 (.responded "hello") =
      { suggestions := ["docker"], query := "docker" } ∧
    (["docker"] : List String) ≠ (fallbackSuggestions "docker").take 5 := by
  constructor <;> decide

open Search in
/-- C6 (amended): whenever the service call raises (service unavailable), the
endpoint answers with exactly the first `limit` elements of the template list
`[q tutorial, q example, q documentation, how to q, q guide]`; the same holds
when a bracketed response fails JSON parsing, but a response with no bracketed
array instead yields `[q]`. -/
theorem unavailable_service_template_fallback
    (parse : String → Option (List String)) (q : String) (limit : Nat)
    (err jsonLike : String) (h : 2 ≤ (pyStrip q).length)
    (hbr : pyStartsWith (pyStrip jsonLike) "[" = true)
    (hparse : parse (pyStrip jsonLike) = none) :
    get_search_suggestions parse q limit (.unavailable err) =
      { suggestions := (fallbackSuggestions q).take limit, query := q } ∧
    get_search_suggestions parse q limit (.responded jsonLike) =
      { suggestions := (fallbackSuggestions q).take limit, query := q } := by
  have hq : ¬(q = "" ∨ (pyStrip q).length < 2) := by
    rintro (rfl | hlt)
    · exact absurd h (by decide)
    · omega
  constructor
  · simp only [get_search_suggestions, if_neg hq]
    rfl
  · simp only [get_search_suggestions, if_neg hq, get_ai_suggestions, hbr, hparse,
      if_true]

open Search in
/-- C6 witness: for query `docker` with an unreachable service and limit 5,
the suggestions are exactly the five template entries. -/
theorem unavailable_service_template_fallback_witness :
    2 ≤ (pyStrip "docker").length ∧
    pyStartsWith (pyStrip "[oops") "[" = true ∧
    get_search_suggestions (fun _ => none) "docker" 5 (.unavailable "unreachable") =
      { suggestions := ["docker tutorial", "docker example", "docker documentation",
                        "how to docker", "docker guide"],
        query := "docker" } :=
  ⟨by decide, by decide,
    by
      have := (unavailable_service_template_fallback (fun _ => none) "docker" 5
        "unreachable" "[oops" (by decide) (by decide) rfl).1
      rw [this]; decide⟩

open Search in
/-- C10: an empty query, or one whose stripped length is below 2, answers with
an empty suggestion list echoing the query — for every parser and every
service outcome, so the service is never consulted and no fallback applies. -/
theorem short_query_empty_suggestions (parse : String → Option (List String))
    (q : String) (limit : Nat) (outcome : ServiceOutcome)
    (h : q = "" ∨ (pyStrip q).length < 2) :
    get_search_suggestions parse q limit outcome = { suggestions := [], query := q } := by
  simp only [get_search_suggestions, if_pos h]

open Search in
/-- C10 witness: the one-character query `a` (stripped length 1) yields no
suggestions even when the service would have responded. -/
theorem short_query_empty_suggestions_witness :
    (("a" : String) = "" ∨ (pyStrip "a").length < 2) ∧
    get_search_suggestions (fun _ => some ["x"]) "a" 5 (.responded "[irrelevant]") =
      { suggestions := [], query := "a" } :=
  ⟨Or.inr (by decide),
    short_query_empty_suggestions (fun _ => some ["x"]) "a" 5 (.responded "[irrelevant]")
      (Or.inr (by decide))⟩

namespace Close

/-- View of the session store restricted to one session id: `record` is the
dict entry (if present), and `contextOpen` whether its browsing context is
still open. -/
structure SessRecord where
  contextOpen : Bool
  deriving DecidableEq, Repr

structure StoreView where
  record : Option SessRecord
  deriving DecidableEq, Repr

/-- `get_session` (`browser.py` lines 60-61): `self.sessions.get(session_id)` —
a plain dict read, never blocking. -/
def get_session (st : StoreView) : Option SessRecord := st.record

/-- First half of `close_session` (`browser.py` line 66):
`await session['context'].close()` completes — an `await`, so a suspension
point at which other tasks may run before the coroutine resumes. -/
def closeContextStep (st : StoreView) : StoreView :=
  { record := st.record.map (fun _ => { contextOpen := false }) }

/-- Second half of `close_session` (`browser.py` line 67):
`del self.sessions[session_id]`. -/
def removeRecordStep (_ : StoreView) : StoreView := { record := none }

end Close

open Close in
/-- C3 counterexample: between the completed `context.close()` await and the
`del` of the record, a concurrently scheduled `get_session` returns the still
present record whose context is already closed — an observable intermediate
state of the close operation. -/
theorem get_observes_half_closed_session :
    Close.get_session (closeContextStep ⟨some ⟨true⟩⟩) = some ⟨false⟩ := by
  decide

open Close in
/-- C3 (amended): once both steps of `close_session` have run — the context
close and the record deletion — every subsequent `get_session` yields
`NotFound`; but the two steps are separated by an `await` suspension point, so
the close is not one logical step and a concurrent reader can observe a
present record whose context is already closed. -/
theorem close_then_get_not_found (st : Close.StoreView) :
    Close.get_session (removeRecordStep (closeContextStep st)) = none := rfl

namespace Engine

/-- Engine-handle part of the manager: whether `self.playwright` has been
assigned, and how many engine launches have been performed. -/
structure EngineState where
  started : Bool
  launches : Nat
  deriving DecidableEq, Repr

/-- Program counter of one task executing `BrowserSessionManager.initialize`
(`browser.py` lines 23-37). `self._lock` (line 21) is never acquired anywhere
in the source, so no step waits on the lock: `ready` performs the
`if self.playwright is None` check; a task that passed the check is
`launching`, i.e. inside `await async_playwright().start()` /
`chromium.launch(...)`; completing that await assigns `self.playwright` and
counts one launch. -/
inductive TaskPc where
  | ready
  | launching
  | done
  deriving DecidableEq, Repr

def stepTask (es : EngineState) (pc : TaskPc) : EngineState × TaskPc :=
  match pc with
  | .ready => if es.started then (es, .done) else (es, .launching)
  | .launching => ({ started := true, launches := es.launches + 1 }, .done)
  | .done => (es, .done)

/-- Two concurrent first calls to `initialize` (e.g. two racing
`create_session` requests) plus a scheduler choice at each step. -/
structure SystemState where
  engine : EngineState
  pc1 : TaskPc
  pc2 : TaskPc
  deriving DecidableEq, Repr

def schedStep (st : SystemState) (pickFirst : Bool) : SystemState :=
  if pickFirst then
    let (es, p) := stepTask st.engine st.pc1
    { engine := es, pc1 := p, pc2 := st.pc2 }
  else
    let (es, p) := stepTask st.engine st.pc2
    { engine := es, pc1 := st.pc1, pc2 := p }

def runSchedule (sched : List Bool) : SystemState :=
  sched.foldl schedStep
    { engine := { started := false, launches := 0 }, pc1 := .ready, pc2 := .ready }

end Engine

open Engine in
/-- C7: because `initialize` never acquires `self._lock`, the
`if self.playwright is None` check and the awaited launch form a
check-then-act race: under the interleaving in which both tasks pass the check
before either assigns `self.playwright`, both complete and the engine is
launched twice — not once as the claim requires of every interleaving. -/
theorem concurrent_first_requests_double_launch :
    (runSchedule [true, false, true, false]).engine.launches = 2 ∧
    (runSchedule [true, false, true, false]).pc1 = TaskPc.done ∧
    (runSchedule [true, false, true, false]).pc2 = TaskPc.done ∧
    (runSchedule [true, true, false, false]).engine.launches = 1 := by
  refine ⟨by decide, by decide, by decide, by decide⟩

namespace Ws

/-- Externally visible actions of the WebSocket handler
(`browser.py` lines 309-397). -/
inductive WsEvent where
  | accepted
  | closedWith (code : Nat) (reason : String)
  | screenshotFrame
  | commandHandled (commandType : String)
  deriving DecidableEq, Repr

/-- Connect phase of `websocket_endpoint` (`browser.py` lines 310-316): accept,
look the session up, and on a missing session close with code 4004 and return
— the streaming task (line 340) and the command loop (lines 342 onwards),
whose interleaved events are abstracted as `streamingEvents`, are only reached
when the session exists. -/
def websocket_endpoint (sessionFound : Bool) (streamingEvents : List WsEvent) :
    List WsEvent :=
  WsEvent.accepted ::
    (if sessionFound then streamingEvents
     else [WsEvent.closedWith 4004 "Session not found"])

end Ws

open Ws in
/-- C8: a WebSocket connection against an unknown session id is accepted and
then immediately closed with the application-level code 4004
("Session not found"); the handler emits no screenshot frame and handles no
inbound command, whatever the streaming phase would have produced. -/
theorem unknown_session_ws_rejected (streamingEvents : List Ws.WsEvent) :
    websocket_endpoint false streamingEvents =
      [WsEvent.accepted, WsEvent.closedWith 4004 "Session not found"] ∧
    (websocket_endpoint false streamingEvents).contains WsEvent.screenshotFrame = false ∧
    ∀ commandType,
      (websocket_endpoint false streamingEvents).contains
        (WsEvent.commandHandled commandType) = false := by
  exact ⟨rfl, rfl, fun commandType => rfl⟩

namespace Shutdown

/-- One stored session as seen by `cleanup`: its id, whether its context is
still open, and whether its `context.close()` would raise. -/
structure SessionRec where
  sid : String
  contextOpen : Bool
  failsOnClose : Bool
  deriving DecidableEq, Repr

/-- The manager state touched by `cleanup` (`browser.py` lines 70-76): the
sessions dict (insertion-ordered), and whether the browser and the playwright
driver are still running. -/
structure ManagerState where
  sessions : List SessionRec
  browserOpen : Bool
  playwrightRunning : Bool
  deriving DecidableEq, Repr

/-- `get_session` (`browser.py` lines 60-61) restricted to this model. -/
def get_session (m : ManagerState) (sid : String) : Option SessionRec :=
  m.sessions.find? (fun s => s.sid == sid)

/-- `close_session` (`browser.py` lines 63-68): no-op when the id is absent;
otherwise `context.close()` — which may raise, leaving the record in place —
followed by deletion of the record. -/
def close_session (m : ManagerState) (sid : String) : Except String ManagerState :=
  match m.sessions.find? (fun s => s.sid == sid) with
  | none => Except.ok m
  | some s =>
      if s.failsOnClose then Except.error ("context.close failed: " ++ sid)
      else Except.ok { m with sessions := m.sessions.filter (fun r => !(r.sid == sid)) }

/-- The `for session_id in list(self.sessions.keys())` loop of `cleanup`
(`browser.py` lines 71-72): `close_session` is awaited with no `try`, so a
raised close propagates and the loop aborts with the manager as it then is. -/
def cleanupLoop (m : ManagerState) : List String → ManagerState × Option String
  | [] => (m, none)
  | sid :: rest =>
      match close_session m sid with
      | Except.error e => (m, some e)
      | Except.ok m2 => cleanupLoop m2 rest

/-- `cleanup` (`browser.py` lines 70-76): loop over a snapshot of the session
ids, then — only if no close raised — close the browser and stop playwright. -/
def cleanup (m : ManagerState) : ManagerState × Option String :=
  match cleanupLoop m (m.sessions.map SessionRec.sid) with
  | (m2, some e) => (m2, some e)
  | (m2, none) =>
      ({ m2 with browserOpen := false, playwrightRunning := false }, none)

/-- Two sessions, the first of which raises on `context.close()`. -/
def failingManager : ManagerState :=
  { sessions := [⟨"a", true, true⟩, ⟨"b", true, false⟩],
    browserOpen := true, playwrightRunning := true }

end Shutdown

open Shutdown in
/-- C9 counterexample: with sessions `a` (whose `context.close()` raises) and
`b`, `cleanup` aborts at `a`: the exception propagates out of the loop, so
session `b` is never closed — it stays retrievable with its context open —
and the browser is never shut down, contrary to the claim that the loop
continues through the remaining sessions. -/
theorem cleanup_aborts_after_first_failure :
    (Shutdown.cleanup failingManager).2 = some "context.close failed: a" ∧
    Shutdown.get_session (Shutdown.cleanup failingManager).1 "b" =
      some ⟨"b", true, false⟩ ∧
    (Shutdown.cleanup failingManager).1.browserOpen = true := by
  refine ⟨by decide, by decide, by decide⟩

open Shutdown in
theorem cleanupLoop_all_ok (ids : List String) :
    ∀ m : ManagerState,
      (∀ s ∈ m.sessions, s.failsOnClose = false) →
      (∀ s ∈ m.sessions, s.sid ∈ ids) →
      Shutdown.cleanupLoop m ids =
        ({ sessions := [], browserOpen := m.browserOpen,
           playwrightRunning := m.playwrightRunning }, none) := by
  induction ids with
  | nil =>
      intro m hfail hcov
      obtain ⟨ms, b, p⟩ := m
      cases ms with
      | nil => rfl
      | cons s rest =>
          exact absurd (hcov s (List.mem_cons_self s rest)) (List.not_mem_nil _)
  | cons sid rest ih =>
      intro m hfail hcov
      simp only [cleanupLoop]
      cases hfind : m.sessions.find? (fun s => s.sid == sid) with
      | none =>
          simp only [close_session, hfind]
          refine ih m hfail (fun s hs => ?_)
          have hne : ¬(s.sid == sid) = true := List.find?_eq_none.mp hfind s hs
          have := hcov s hs
          simp only [List.mem_cons] at this
          rcases this with heq | hmem
          · exact absurd (beq_iff_eq.mpr heq) hne
          · exact hmem
      | some s =>
          have hsmem : s ∈ m.sessions := List.mem_of_find?_eq_some hfind
          have hsf : s.failsOnClose = false := hfail s hsmem
          simp only [close_session, hfind, hsf, Bool.false_eq_true, if_false]
          refine ih _ (fun r hr => ?_) (fun r hr => ?_)
          · exact hfail r (List.mem_of_mem_filter hr)
          · have hrm : r ∈ m.sessions := List.mem_of_mem_filter hr
            have hrne : (!(r.sid == sid)) = true := (List.mem_filter.mp hr).2
            have := hcov r hrm
            simp only [List.mem_cons] at this
            rcases this with heq | hmem
            · rw [heq] at hrne
              simp at hrne
            · exact hmem

open Shutdown in
/-- C9 (amended): when no session's `context.close()` raises, `cleanup` closes
every session and then shuts the engine down — afterwards no session is
retrievable and invoking `cleanup` again is safe and changes nothing; but a
raising close aborts the loop, so the remaining sessions are then left open
(see the counterexample). -/
theorem cleanup_closes_all_and_is_idempotent (m : Shutdown.ManagerState)
    (h : m.sessions.all (fun s => !s.failsOnClose) = true) :
    Shutdown.cleanup m =
      ({ sessions := [], browserOpen := false, playwrightRunning := false }, none) ∧
    (∀ sid, Shutdown.get_session (Shutdown.cleanup m).1 sid = none) ∧
    Shutdown.cleanup (Shutdown.cleanup m).1 = ((Shutdown.cleanup m).1, none) := by
  have hfail : ∀ s ∈ m.sessions, s.failsOnClose = false := by
    intro s hs
    have := List.all_eq_true.mp h s hs
    simpa using this
  have hcov : ∀ s ∈ m.sessions, s.sid ∈ m.sessions.map SessionRec.sid :=
    fun s hs => List.mem_map_of_mem _ hs
  have hloop := cleanupLoop_all_ok (m.sessions.map SessionRec.sid) m hfail hcov
  have hclean : Shutdown.cleanup m =
      ({ sessions := [], browserOpen := false, playwrightRunning := false }, none) := by
    simp [Shutdown.cleanup, hloop]
  refine ⟨hclean, fun sid => ?_, ?_⟩
  · rw [hclean]
    rfl
  · rw [hclean]
    rfl

open Shutdown in
/-- C9 witness: a manager with one well-behaved session is fully cleaned up. -/
theorem cleanup_closes_all_and_is_idempotent_witness :
    ((⟨[⟨"a", true, false⟩], true, true⟩ : Shutdown.ManagerState).sessions.all
      (fun s => !s.failsOnClose) = true) ∧
    Shutdown.cleanup ⟨[⟨"a", true, false⟩], true, true⟩ =
      ({ sessions := [], browserOpen := false, playwrightRunning := false }, none) :=
  ⟨by decide,
    (cleanup_closes_all_and_is_idempotent ⟨[⟨"a", true, false⟩], true, true⟩ (by decide)).1⟩
